import Mathlib

/-!
Verification of the `json-result` crate: a dual-outcome codec over an
untagged JSON wire format, with a tagged enum facade (`enum.rs`, duplicated
at the crate root in `lib.rs`) and a transparent wrapper facade
(`struct.rs`).

The embedding models `serde_json::Value` as an inductive `Json` tree, and
the external serde machinery for a Rust type (its `type_name`, its
`Deserialize` and `Serialize` impls) as an abstract `Shape` record: the
crate's own logic is generic in `T` and `E` and only ever calls
`serde_json::from_value`, `serde_json::json!` and `std::any::type_name`
through them.
-/

namespace JsonResultCrate

/-- Model of `serde_json::Value`: a self-describing JSON tree. -/
inductive Json where
  | null
  | bool (b : Bool)
  | num (n : Int)
  | str (s : String)
  | arr (xs : List Json)
  | obj (fields : List (String × Json))

/-- Model of the external serde instances for one Rust type `α`:
`name` is `std::any::type_name`, `decode` is `serde_json::from_value`
(returning the serde error rendered as a string), `encode` is
`serde_json::json!` / `Serialize`. -/
structure Shape (α : Type) where
  name : String
  decode : Json → Except String α
  encode : α → Json

namespace Lib

/-- Model of the crate-root `JsonResult<T, E>` enum of `lib.rs`. -/
inductive JsonResult (T E : Type) where
  | Ok (v : T)
  | Err (e : E)

/-- Model of `impl From<JsonResult<T, E>> for serde_json::Value` in
`lib.rs` (lines 10-21): serialize whichever variant is populated. -/
def toValue {T E : Type} (st : Shape T) (se : Shape E) :
    JsonResult T E → Json
  | JsonResult.Ok v => st.encode v
  | JsonResult.Err e => se.encode e

/-- Model of `impl TryFrom<serde_json::Value> for JsonResult<T, E>` in
`lib.rs` (lines 23-48): try `T` first, then `E`, and on double failure
build the combined diagnostic with both type names. -/
def tryFrom {T E : Type} (st : Shape T) (se : Shape E) (value : Json) :
    Except String (JsonResult T E) :=
  let t_res := st.decode value
  let e_res := se.decode value
  match t_res, e_res with
  | Except.ok v, _ => Except.ok (JsonResult.Ok v)
  | _, Except.ok e => Except.ok (JsonResult.Err e)
  | Except.error t_err, Except.error e_err =>
      Except.error ("Failed to parse as " ++ st.name ++ ": " ++ t_err ++
        "\n" ++ "Failed to parse as " ++ se.name ++ ": " ++ e_err)

end Lib

namespace Enum

/-- Model of the `JsonResult<T, E>` enum of `enum.rs`. -/
inductive JsonResult (T E : Type) where
  | Ok (v : T)
  | Err (e : E)

/-- Model of `impl From<JsonResult<T, E>> for serde_json::Value` in
`enum.rs` (lines 17-41). -/
def toValue {T E : Type} (st : Shape T) (se : Shape E) :
    JsonResult T E → Json
  | JsonResult.Ok v => st.encode v
  | JsonResult.Err e => se.encode e

/-- Model of `impl TryFrom<serde_json::Value> for JsonResult<T, E>` in
`enum.rs` (lines 43-89). -/
def tryFrom {T E : Type} (st : Shape T) (se : Shape E) (value : Json) :
    Except String (JsonResult T E) :=
  let t_res := st.decode value
  let e_res := se.decode value
  match t_res, e_res with
  | Except.ok v, _ => Except.ok (JsonResult.Ok v)
  | _, Except.ok e => Except.ok (JsonResult.Err e)
  | Except.error t_err, Except.error e_err =>
      Except.error ("Failed to parse as " ++ st.name ++ ": " ++ t_err ++
        "\n" ++ "Failed to parse as " ++ se.name ++ ": " ++ e_err)

end Enum

/-- Model of Rust's native `Result<T, E>`. -/
inductive RustResult (T E : Type) where
  | Ok (v : T)
  | Err (e : E)

namespace Enum

/-- Model of `impl From<Result<T, E>> for JsonResult<T, E>` in
`enum.rs` (lines 91-98). -/
def fromResult {T E : Type} : RustResult T E → JsonResult T E
  | RustResult.Ok v => JsonResult.Ok v
  | RustResult.Err e => JsonResult.Err e

end Enum

namespace Struct

/-- Model of the tuple struct `JsonResult<T, E>(pub Result<T, E>)` of
`struct.rs`; `inner` is the public field `.0`. -/
structure JsonResult (T E : Type) where
  inner : RustResult T E

/-- Model of `impl Serialize for JsonResult<T, E>` in `struct.rs`
(lines 36-50): serialize whichever side of the wrapped `Result` is
populated, with no wrapper or tag. -/
def serialize {T E : Type} (st : Shape T) (se : Shape E)
    (jr : JsonResult T E) : Json :=
  match jr.inner with
  | RustResult.Ok v => st.encode v
  | RustResult.Err e => se.encode e

/-- Model of `impl Deserialize for JsonResult<T, E>` in `struct.rs`
(lines 52-83). The argument `raw` is the outcome of
`serde_json::Value::deserialize(deserializer)?`: either the parsed JSON
tree or the parser's own syntax-error message. The body then decodes `T`
and `E` from that single parsed value. -/
def deserialize {T E : Type} (st : Shape T) (se : Shape E)
    (raw : Except String Json) : Except String (JsonResult T E) := do
  let value ← raw
  let try_t := st.decode value
  let try_e := se.decode value
  match try_t, try_e with
  | Except.ok v, _ => Except.ok ⟨RustResult.Ok v⟩
  | _, Except.ok e => Except.ok ⟨RustResult.Err e⟩
  | Except.error t_err, Except.error e_err =>
      Except.error ("Failed to parse as " ++ st.name ++ ": " ++ t_err ++
        "\n" ++ "Failed to parse as " ++ se.name ++ ": " ++ e_err)

/-- Model of `impl From<JsonResult<T, E>> for serde_json::Value` in
`struct.rs` (lines 85-96). -/
def toValue {T E : Type} (st : Shape T) (se : Shape E)
    (value : JsonResult T E) : Json :=
  match value.inner with
  | RustResult.Ok v => st.encode v
  | RustResult.Err e => se.encode e

/-- Model of `impl Deref for JsonResult<T, E>` in `struct.rs`
(lines 99-105): a read through the wrapper sees exactly `self.0`. -/
def deref {T E : Type} (jr : JsonResult T E) : RustResult T E :=
  jr.inner

/-- Model of a mutation through `impl DerefMut for JsonResult<T, E>` in
`struct.rs` (lines 107-111): the caller gets `&mut self.0`, so any update
function applied through it rewrites the wrapped `Result` in place. -/
def modify {T E : Type} (jr : JsonResult T E)
    (f : RustResult T E → RustResult T E) : JsonResult T E :=
  ⟨f jr.inner⟩

/-- Whole-value replacement through `DerefMut`, `*jr = r`. -/
def setInner {T E : Type} (_jr : JsonResult T E) (r : RustResult T E) :
    JsonResult T E :=
  ⟨r⟩

/-- Variant correspondence between the transparent facade's wrapped
`Result` and the tagged facade's enum. -/
def toEnum {T E : Type} : JsonResult T E → Enum.JsonResult T E
  | ⟨RustResult.Ok v⟩ => Enum.JsonResult.Ok v
  | ⟨RustResult.Err e⟩ => Enum.JsonResult.Err e

end Struct

/-- Variant correspondence between the `enum.rs` facade and the
identically shaped crate-root enum of `lib.rs`. -/
def toLib {T E : Type} : Enum.JsonResult T E → Lib.JsonResult T E
  | Enum.JsonResult.Ok v => Lib.JsonResult.Ok v
  | Enum.JsonResult.Err e => Lib.JsonResult.Err e

/-- Concrete shape for a plain JSON integer payload (as in the crate's
`NumberT` / `i32` doctests); used to instantiate theorems. -/
def intShape : Shape Int where
  name := "i64"
  decode := fun v =>
    match v with
    | Json.num n => Except.ok n
    | _ => Except.error "invalid type: expected an integer"
  encode := fun n => Json.num n

/-- Concrete shape for a plain JSON string payload (as in the crate's
`StringE` / `String` doctests); used to instantiate theorems. -/
def strShape : Shape String where
  name := "alloc::string::String"
  decode := fun v =>
    match v with
    | Json.str s => Except.ok s
    | _ => Except.error "invalid type: expected a string"
  encode := fun s => Json.str s

/-- Claim C1: whenever a raw JSON value deserializes successfully both as
the success type `T` and as the error type `E`, the tagged facade's
`TryFrom<serde_json::Value>` and the transparent facade's `Deserialize`
both yield the success outcome holding the `T` value, never the failure
outcome. -/
theorem c1_first_match_wins {T E : Type} (st : Shape T) (se : Shape E)
    (v : Json) (t : T) (e : E)
    (ht : st.decode v = Except.ok t) (he : se.decode v = Except.ok e) :
    Enum.tryFrom st se v = Except.ok (Enum.JsonResult.Ok t) ∧
    Struct.deserialize st se (Except.ok v) =
      Except.ok ⟨RustResult.Ok t⟩ := by
  constructor
  · simp [Enum.tryFrom, ht, he]
  · simp [Struct.deserialize, bind, Except.bind, ht, he]

/-- Witness for C1 at the ambiguous input `3` with both shapes the
integer shape: success wins. -/
theorem c1_first_match_wins_witness :
    Enum.tryFrom intShape intShape (Json.num 3) =
      Except.ok (Enum.JsonResult.Ok 3) ∧
    Struct.deserialize intShape intShape (Except.ok (Json.num 3)) =
      Except.ok ⟨RustResult.Ok 3⟩ :=
  c1_first_match_wins intShape intShape (Json.num 3) 3 3 rfl rfl

/-- Claim C2: for every success value `v` whose external serde instance
round-trips it through the raw JSON representation (the contract of the
structured-value collaborator for an encodable `T`), encoding
`Success v` and decoding the result yields `Success v` again. -/
theorem c2_round_trip_success {T E : Type} (st : Shape T) (se : Shape E)
    (v : T) (hT : st.decode (st.encode v) = Except.ok v) :
    Enum.tryFrom st se (Enum.toValue st se (Enum.JsonResult.Ok v)) =
      Except.ok (Enum.JsonResult.Ok v) := by
  cases he : se.decode (st.encode v) <;>
    simp [Enum.tryFrom, Enum.toValue, hT, he]

/-- Witness for C2 at the integer success payload `7` against the string
error shape. -/
theorem c2_round_trip_success_witness :
    Enum.tryFrom intShape strShape
        (Enum.toValue intShape strShape (Enum.JsonResult.Ok 7)) =
      Except.ok (Enum.JsonResult.Ok 7) :=
  c2_round_trip_success intShape strShape 7 rfl

/-- Counterexample to C3 as stated: with `T` and `E` both the integer
shape (the configuration of the repo's own `test_ambiguous_value`),
the error payload `5` is encodable and round-trips through its own shape,
yet decode(encode(Failure 5)) yields `Success 5`, not `Failure 5`,
because the success shape is tried first. -/
theorem c3_round_trip_error_counterexample :
    intShape.decode (intShape.encode 5) = Except.ok 5 ∧
    Enum.tryFrom intShape intShape
        (Enum.toValue intShape intShape (Enum.JsonResult.Err 5)) =
      Except.ok (Enum.JsonResult.Ok 5) ∧
    Enum.tryFrom intShape intShape
        (Enum.toValue intShape intShape (Enum.JsonResult.Err 5)) ≠
      Except.ok (Enum.JsonResult.Err 5) := by
  refine ⟨rfl, rfl, fun h => ?_⟩
  exact Enum.JsonResult.noConfusion (Except.ok.inj h)

/-- Claim C3 (amended): for every error value `v` whose serde instance
round-trips it, provided the encoded raw value does NOT also deserialize
as the success type `T`, encoding `Failure v` and decoding the result
yields `Failure v` again. -/
theorem c3_round_trip_error_amended {T E : Type} (st : Shape T)
    (se : Shape E) (v : E) (m : String)
    (hE : se.decode (se.encode v) = Except.ok v)
    (hT : st.decode (se.encode v) = Except.error m) :
    Enum.tryFrom st se (Enum.toValue st se (Enum.JsonResult.Err v)) =
      Except.ok (Enum.JsonResult.Err v) := by
  simp [Enum.tryFrom, Enum.toValue, hE, hT]

/-- Witness for the amended C3 at the string error payload against the
integer success shape, which rejects a JSON string. -/
theorem c3_round_trip_error_amended_witness :
    Enum.tryFrom intShape strShape
        (Enum.toValue intShape strShape (Enum.JsonResult.Err "boom")) =
      Except.ok (Enum.JsonResult.Err "boom") :=
  c3_round_trip_error_amended intShape strShape "boom"
    "invalid type: expected an integer" rfl rfl

/-- Claim C4: when a raw value deserializes as neither `T` nor `E`, both
facades fail with exactly the diagnostic
`Failed to parse as <T>: <t_err>\nFailed to parse as <E>: <e_err>` —
the `T` identity, the `T` failure detail, the `E` identity and the `E`
failure detail in that order, the `T` part and the `E` part separated by
a newline so each sits on its own line. -/
theorem c4_dual_failure_diagnostic {T E : Type} (st : Shape T)
    (se : Shape E) (v : Json) (t_err e_err : String)
    (ht : st.decode v = Except.error t_err)
    (he : se.decode v = Except.error e_err) :
    Enum.tryFrom st se v =
      Except.error ("Failed to parse as " ++ st.name ++ ": " ++ t_err ++
        "\n" ++ "Failed to parse as " ++ se.name ++ ": " ++ e_err) ∧
    Struct.deserialize st se (Except.ok v) =
      Except.error ("Failed to parse as " ++ st.name ++ ": " ++ t_err ++
        "\n" ++ "Failed to parse as " ++ se.name ++ ": " ++ e_err) := by
  constructor
  · simp [Enum.tryFrom, ht, he]
  · simp [Struct.deserialize, bind, Except.bind, ht, he]

/-- Witness for C4 at raw `null`, which neither the integer nor the
string shape accepts. -/
theorem c4_dual_failure_diagnostic_witness :
    Enum.tryFrom intShape strShape Json.null =
      Except.error ("Failed to parse as " ++ intShape.name ++ ": " ++
        "invalid type: expected an integer" ++ "\n" ++
        "Failed to parse as " ++ strShape.name ++ ": " ++
        "invalid type: expected a string") ∧
    Struct.deserialize intShape strShape (Except.ok Json.null) =
      Except.error ("Failed to parse as " ++ intShape.name ++ ": " ++
        "invalid type: expected an integer" ++ "\n" ++
        "Failed to parse as " ++ strShape.name ++ ": " ++
        "invalid type: expected a string") :=
  c4_dual_failure_diagnostic intShape strShape Json.null
    "invalid type: expected an integer" "invalid type: expected a string"
    rfl rfl

/-- Claim C5: encoding is untagged in both facades: a populated outcome
serializes to exactly the freestanding encoding of its payload, with no
wrapper object, discriminant key or type tag. -/
theorem c5_encoding_untagged {T E : Type} (st : Shape T) (se : Shape E)
    (v : T) (e : E) :
    Enum.toValue st se (Enum.JsonResult.Ok v) = st.encode v ∧
    Enum.toValue st se (Enum.JsonResult.Err e) = se.encode e ∧
    Struct.serialize st se ⟨RustResult.Ok v⟩ = st.encode v ∧
    Struct.serialize st se ⟨RustResult.Err e⟩ = se.encode e ∧
    Struct.toValue st se ⟨RustResult.Ok v⟩ = st.encode v ∧
    Struct.toValue st se ⟨RustResult.Err e⟩ = se.encode e :=
  ⟨rfl, rfl, rfl, rfl, rfl, rfl⟩

/-- Claim C6: the conversion from a native `Result<T, E>` into the tagged
facade is a total Lean function (hence infallible) that sends `Ok v` to
the success variant holding `v` and `Err e` to the failure variant
holding `e`, preserving the payload unchanged. -/
theorem c6_from_result_total {T E : Type} (v : T) (e : E) :
    (Enum.fromResult (RustResult.Ok v) : Enum.JsonResult T E) =
      Enum.JsonResult.Ok v ∧
    (Enum.fromResult (RustResult.Err e) : Enum.JsonResult T E) =
      Enum.JsonResult.Err e :=
  ⟨rfl, rfl⟩

/-- Claim C7: the transparent facade and the tagged facade are
observationally equivalent codecs: serialization (both the `Serialize`
impl and the `From<JsonResult> for Value` impl) of a wrapped `Result`
equals the tagged facade's encode of the corresponding variant, and
decoding the same already-parsed raw value through the transparent
facade equals (under the variant correspondence) the tagged facade's
decode — same side, same payload, and failure with the same message in
the same cases. -/
theorem c7_facade_equivalence {T E : Type} (st : Shape T) (se : Shape E)
    (r : RustResult T E) (v : Json) :
    Struct.serialize st se ⟨r⟩ =
      Enum.toValue st se (Enum.fromResult r) ∧
    Struct.toValue st se ⟨r⟩ =
      Enum.toValue st se (Enum.fromResult r) ∧
    Except.map Struct.toEnum (Struct.deserialize st se (Except.ok v)) =
      Enum.tryFrom st se v := by
  refine ⟨?_, ?_, ?_⟩
  · cases r <;> rfl
  · cases r <;> rfl
  · cases ht : st.decode v <;> cases he : se.decode v <;>
      simp [Struct.deserialize, Enum.tryFrom, Struct.toEnum, Except.map,
        bind, Except.bind, ht, he]

/-- Claim C8: the transparent facade's `Deserialize` parses the raw input
into a structured value exactly once: it factors as the raw parse
followed by the single-value dual-shape decode (the tagged facade's
algorithm) on that one parsed form. A syntax error from the parser is
surfaced verbatim and immediately, independent of the candidate shapes
and before either shape attempt; the dual-shape diagnostic, by contrast,
arises only after a successful parse when both decodes of that same
value fail, and has the fixed `Failed to parse as` format. -/
theorem c8_parse_once_syntax_error {T E : Type} (st : Shape T)
    (se : Shape E) (m : String) (raw : Except String Json) :
    Struct.deserialize st se (Except.error m) = Except.error m ∧
    Except.map Struct.toEnum (Struct.deserialize st se raw) =
      raw.bind (fun value => Enum.tryFrom st se value) ∧
    (∀ v t_err e_err, st.decode v = Except.error t_err →
      se.decode v = Except.error e_err →
      Struct.deserialize st se (Except.ok v) =
        Except.error ("Failed to parse as " ++ st.name ++ ": " ++ t_err ++
          "\n" ++ "Failed to parse as " ++ se.name ++ ": " ++ e_err)) := by
  refine ⟨rfl, ?_, ?_⟩
  · cases raw with
    | error m => rfl
    | ok v =>
        cases ht : st.decode v <;> cases he : se.decode v <;>
          simp [Struct.deserialize, Enum.tryFrom, Struct.toEnum,
            Except.map, bind, Except.bind, ht, he]
  · intro v t_err e_err ht he
    simp [Struct.deserialize, bind, Except.bind, ht, he]

/-- Witness for C8: a concrete syntax-error message passes through
verbatim, the factoring holds on that input, and raw `null` (parsed
successfully, matching neither shape) produces the dual diagnostic. -/
theorem c8_parse_once_syntax_error_witness :
    Struct.deserialize intShape strShape
        (Except.error "expected value at line 1 column 1")
      = Except.error "expected value at line 1 column 1" ∧
    Except.map Struct.toEnum
        (Struct.deserialize intShape strShape
          (Except.error "expected value at line 1 column 1")) =
      (Except.error "expected value at line 1 column 1" :
        Except String Json).bind
        (fun value => Enum.tryFrom intShape strShape value) ∧
    Struct.deserialize intShape strShape (Except.ok Json.null) =
      Except.error ("Failed to parse as " ++ intShape.name ++ ": " ++
        "invalid type: expected an integer" ++ "\n" ++
        "Failed to parse as " ++ strShape.name ++ ": " ++
        "invalid type: expected a string") :=
  ⟨(c8_parse_once_syntax_error intShape strShape
      "expected value at line 1 column 1"
      (Except.error "expected value at line 1 column 1")).1,
   (c8_parse_once_syntax_error intShape strShape
      "expected value at line 1 column 1"
      (Except.error "expected value at line 1 column 1")).2.1,
   (c8_parse_once_syntax_error intShape strShape
      "expected value at line 1 column 1"
      (Except.error "expected value at line 1 column 1")).2.2 Json.null
      "invalid type: expected an integer" "invalid type: expected a string"
      rfl rfl⟩

/-- Claim C9: the transparent facade is operationally transparent: every
read through `Deref` observes exactly the wrapped `Result` (so any read
operation applied through the wrapper equals the same operation on the
unwrapped value), and after a whole-value replacement or an in-place
update through `DerefMut`, every subsequent read through the wrapper
observes the new value with no stale view. -/
theorem c9_transparent_wrapper {T E α : Type}
    (jr : Struct.JsonResult T E) (read : RustResult T E → α)
    (r : RustResult T E) (f : RustResult T E → RustResult T E) :
    read (Struct.deref jr) = read jr.inner ∧
    Struct.deref (Struct.setInner jr r) = r ∧
    read (Struct.deref (Struct.setInner jr r)) = read r ∧
    Struct.deref (Struct.modify jr f) = f (Struct.deref jr) ∧
    read (Struct.deref (Struct.modify jr f)) =
      read (f (Struct.deref jr)) :=
  ⟨rfl, rfl, rfl, rfl, rfl⟩

/-- Claim C10: the crate-root `JsonResult` of `lib.rs` and the tagged
facade of `enum.rs` are behaviorally identical codecs: corresponding
variants convert to equal raw values, and `TryFrom<serde_json::Value>`
yields the corresponding variant with the same payload, failing in
exactly the same cases with the same diagnostic message. -/
theorem c10_lib_enum_identical {T E : Type} (st : Shape T) (se : Shape E)
    (jr : Enum.JsonResult T E) (v : Json) :
    Lib.toValue st se (toLib jr) = Enum.toValue st se jr ∧
    Lib.tryFrom st se v = Except.map toLib (Enum.tryFrom st se v) := by
  constructor
  · cases jr <;> rfl
  · cases ht : st.decode v <;> cases he : se.decode v <;>
      simp [Lib.tryFrom, Enum.tryFrom, toLib, Except.map, ht, he]

end JsonResultCrate
